import Mathlib

/-!
Shallow embedding of the x-project post-lifecycle and scheduling engine
(the Express web app in the repository: in-memory `topics` and
`pendingPosts` maps, the `schedule` singleton, the scheduler timers, the
content generator, and the API route handlers). Definitions are translated
from the source; external collaborators (OpenRouter client, Twitter client,
clock, random pick) enter as explicit parameters.
-/

namespace XPost

/-- `PendingPost.status` values (source `'pending' | 'approved' | 'rejected'`). -/
inductive Status
  | pending
  | approved
  | rejected
deriving DecidableEq

/-- `interface Topic` (id, name, createdAt, isActive); instants are modelled as `Nat`. -/
structure Topic where
  id : String
  name : String
  createdAt : Nat
  isActive : Bool
deriving DecidableEq

/-- `interface PendingPost` (id, content, topic?, timestamp, status). -/
structure PendingPost where
  id : String
  content : String
  topic : Option String
  timestamp : Nat
  status : Status
deriving DecidableEq

/-- `Schedule.frequency` values. -/
inductive Frequency
  | daily
  | weekly
  | monthly
deriving DecidableEq

/-- `interface Schedule` (frequency, time "HH:MM", timezone, isActive). -/
structure Schedule where
  frequency : Frequency
  time : String
  timezone : String
  isActive : Bool
deriving DecidableEq

/-- Lookup in a JS `Map` modelled as an insertion-ordered association list
(`Map.prototype.get`). -/
def mapGet {α : Type} (m : List (String × α)) (k : String) : Option α :=
  match m with
  | [] => none
  | (k₁, v) :: rest => if k₁ = k then some v else mapGet rest k

/-- `Map.prototype.set`: update in place when the key exists, else append
(JS Maps keep insertion order). -/
def mapSet {α : Type} (m : List (String × α)) (k : String) (v : α) : List (String × α) :=
  match m with
  | [] => [(k, v)]
  | (k₁, v₁) :: rest => if k₁ = k then (k₁, v) :: rest else (k₁, v₁) :: mapSet rest k v

/-- The process state: the `topics` map, the `pendingPosts` map and the
`schedule` singleton (source lines 225-232). -/
structure AppState where
  topics : List (String × Topic)
  posts : List (String × PendingPost)
  schedule : Schedule
deriving DecidableEq

/-- The initial `schedule` literal: `{ frequency: 'daily', time: '09:00', timezone: 'UTC', isActive: true }`. -/
def defaultSchedule : Schedule :=
  ⟨Frequency.daily, "09:00", "UTC", true⟩

/-- The state at server start: both maps empty, the default schedule. -/
def emptyState : AppState :=
  ⟨[], [], defaultSchedule⟩

/-- A route handler's JSON reply, keeping the parts the routes produce:
`{success:true}`, `{success:true, id}`, `{success:true, post}` or
`{success:false, error}`. -/
inductive ApiResult
  | ok
  | okId (id : String)
  | okPost (post : PendingPost)
  | err (msg : String)
deriving DecidableEq

/-- The record `postToX` resolves to: `{success:true, id}` when the tweet call
succeeds, `{success:false, error}` when credentials are missing or the call
throws (`postToX` never throws). It is an input from the Publisher collaborator. -/
inductive PublishOutcome
  | success (remoteId : String)
  | failure (error : String)
deriving DecidableEq

/-- The ContentGenerator collaborator as the `generatePost` body observes it:
`unavailable` when `openRouterClient` is null, `throws` when the chat-completion
call rejects, `returns text` for the trimmed `choices[0].message.content || ''`. -/
inductive GenBackend
  | unavailable
  | throws (msg : String)
  | returns (text : String)
deriving DecidableEq

/-- The fallback template literal in `generatePost`:
`Tip: ${subject}. Keep it short, specific, and actionable. Focus on one insight, avoid fluff.` -/
def fallbackTemplate (subject : String) : String :=
  "Tip: " ++ subject ++ ". Keep it short, specific, and actionable. Focus on one insight, avoid fluff."

/-- The inlined cap in `generatePost`: `x.length > 280 ? x.slice(0, 279) : x`. -/
def capFor280 (s : String) : String :=
  if s.length > 280 then s.take 279 else s

/-- `const subject = topic || 'a useful dev tip'` — a missing or empty (falsy)
topic string falls back to the default subject. -/
def subjectOf (topic : Option String) : String :=
  match topic with
  | some t => if t = "" then "a useful dev tip" else t
  | none => "a useful dev tip"

/-- `generatePost(topic?)` (web app, lines 345-364): with no client, return the
capped fallback template; otherwise the backend call either throws (the
rejection propagates to the caller) or yields text that is capped to 280. -/
def generatePost (backend : GenBackend) (topic : Option String) : Except String String :=
  let subject := subjectOf topic
  match backend with
  | GenBackend.unavailable => Except.ok (capFor280 (fallbackTemplate subject))
  | GenBackend.throws m => Except.error m
  | GenBackend.returns t => Except.ok (capFor280 t)

/-- `Array.from(topics.values()).filter(topic => topic.isActive)`. -/
def activeTopics (st : AppState) : List Topic :=
  (st.topics.map Prod.snd).filter (fun t => t.isActive)

/-- `POST /api/topics` (lines 903-926): reject a missing or empty (falsy) name
with `Topic name required`; otherwise insert `{id, name, createdAt, isActive:true}`
under the fresh time-based id. `name : Option String` models a possibly absent
body field; `newId` is `Date.now().toString()` and `now` the `new Date()` instant. -/
def addTopic (st : AppState) (name : Option String) (newId : String) (now : Nat) :
    AppState × ApiResult :=
  match name with
  | none => (st, ApiResult.err "Topic name required")
  | some n =>
    if n = "" then (st, ApiResult.err "Topic name required")
    else
      ({ st with topics := mapSet st.topics newId ⟨newId, n, now, true⟩ }, ApiResult.ok)

/-- `POST /api/topics/:id/toggle` (lines 933-954). -/
def toggleTopic (st : AppState) (id : String) : AppState × ApiResult :=
  if id = "" then (st, ApiResult.err "Topic ID required")
  else
    match mapGet st.topics id with
    | none => (st, ApiResult.err "Topic not found")
    | some t =>
      ({ st with topics := mapSet st.topics id { t with isActive := !t.isActive } }, ApiResult.ok)

/-- `DELETE /api/topics/:id` (lines 956-974). -/
def deleteTopic (st : AppState) (id : String) : AppState × ApiResult :=
  if id = "" then (st, ApiResult.err "Topic ID required")
  else
    match mapGet st.topics id with
    | none => (st, ApiResult.err "Topic not found")
    | some _ =>
      ({ st with topics := st.topics.filter (fun kv => !(kv.1 = id)) }, ApiResult.ok)

/-- `POST /api/posts/:id/approve` (lines 1016-1043): look the post up, call
`postToX(post.content)`; on publisher success set `status = 'approved'` and
reply with the remote id; on publisher failure reply `{success:false, error}`
leaving the post untouched. No check of the current status is made. -/
def approvePost (st : AppState) (id : String) (pub : PublishOutcome) :
    AppState × ApiResult :=
  if id = "" then (st, ApiResult.err "Post ID required")
  else
    match mapGet st.posts id with
    | none => (st, ApiResult.err "Post not found")
    | some post =>
      match pub with
      | PublishOutcome.success rid =>
        ({ st with posts := mapSet st.posts id { post with status := Status.approved } },
          ApiResult.okId rid)
      | PublishOutcome.failure e => (st, ApiResult.err e)

/-- `POST /api/posts/:id/reject` (lines 1045-1066): look the post up and set
`status = 'rejected'` unconditionally. No check of the current status is made. -/
def rejectPost (st : AppState) (id : String) : AppState × ApiResult :=
  if id = "" then (st, ApiResult.err "Post ID required")
  else
    match mapGet st.posts id with
    | none => (st, ApiResult.err "Post not found")
    | some post =>
      ({ st with posts := mapSet st.posts id { post with status := Status.rejected } },
        ApiResult.ok)

/-- Status as the query string `GET /api/posts?status=` compares it. -/
def statusStr (s : Status) : String :=
  match s with
  | Status.pending => "pending"
  | Status.approved => "approved"
  | Status.rejected => "rejected"

/-- `GET /api/posts` (lines 1004-1014) before sorting: the stored posts,
filtered by the optional status query. (Sorting by timestamp reorders but
never alters a post, so observations of a post's fields go through this list.) -/
def listPosts (st : AppState) (filter : Option String) : List PendingPost :=
  let posts := st.posts.map Prod.snd
  match filter with
  | some s => posts.filter (fun p => statusStr p.status = s)
  | none => posts

/-- `POST /api/generate-post` (lines 1068-1103): with no active topic reply the
no-active-topics error; else pick `activeTopics[floor(random*len)]` (modelled as
`pick % len`), run `generatePost`; a thrown generation error is caught by the
handler's `catch` and surfaced as `{success:false, error}` with no post created;
otherwise store a fresh pending post and reply with it. -/
def generateRoute (st : AppState) (backend : GenBackend) (pick : Nat)
    (newId : String) (now : Nat) : AppState × ApiResult :=
  match (activeTopics st)[pick % (activeTopics st).length]? with
  | none =>
    (st, ApiResult.err "No active topics found. Please add and enable some topics first.")
  | some randomTopic =>
    match generatePost backend (some randomTopic.name) with
    | Except.error m => (st, ApiResult.err m)
    | Except.ok content =>
      let post : PendingPost := ⟨newId, content, some randomTopic.name, now, Status.pending⟩
      ({ st with posts := mapSet st.posts newId post }, ApiResult.okPost post)

/-- `generateScheduledPost` (lines 304-343): same selection and generation as
the route, but with no HTTP reply; with no active topic it returns after a log
line, and any thrown error is swallowed by its `catch`. -/
def generateScheduledPost (st : AppState) (backend : GenBackend) (pick : Nat)
    (newId : String) (now : Nat) : AppState :=
  match (activeTopics st)[pick % (activeTopics st).length]? with
  | none => st
  | some randomTopic =>
    match generatePost backend (some randomTopic.name) with
    | Except.error _ => st
    | Except.ok content =>
      { st with posts := mapSet st.posts newId ⟨newId, content, some randomTopic.name, now, Status.pending⟩ }

/-- One operation against the shared state, for trace properties: post creation
(the generate route), topic registration, approve, reject, and the read-only
list query. -/
inductive StoreOp
  | create (backend : GenBackend) (pick : Nat) (newId : String) (now : Nat)
  | newTopic (name : Option String) (newId : String) (now : Nat)
  | approve (id : String) (pub : PublishOutcome)
  | reject (id : String)
  | listOp (filter : Option String)

/-- Effect of one operation on the state (`listOp` reads but does not write). -/
def step (st : AppState) (op : StoreOp) : AppState :=
  match op with
  | StoreOp.create b p i n => (generateRoute st b p i n).1
  | StoreOp.newTopic nm i n => (addTopic st nm i n).1
  | StoreOp.approve id pub => (approvePost st id pub).1
  | StoreOp.reject id => (rejectPost st id).1
  | StoreOp.listOp _ => st

/-- Run a sequence of operations from a state. -/
def run (st : AppState) (ops : List StoreOp) : AppState :=
  ops.foldl step st

/-- ASCII whitespace, as JS `Number` strips around a numeric string. -/
def isJsSpace (c : Char) : Bool :=
  c = ' ' || c = '\t' || c = '\n' || c = '\r'

/-- JS `String.prototype.split(':')` on the character list of the string:
always yields at least one (possibly empty) field, e.g. `"".split(':') == [""]`
and `"00:30".split(':') == ["00","30"]`. -/
def splitOnColon (cs : List Char) : List (List Char) :=
  match cs with
  | [] => [[]]
  | c :: rest =>
    if c = ':' then [] :: splitOnColon rest
    else
      match splitOnColon rest with
      | [] => [[c]]
      | f :: fs => (c :: f) :: fs

/-- Value of a decimal digit string; `none` for any non-digit character. -/
def digitsVal (cs : List Char) (acc : Nat) : Option Nat :=
  match cs with
  | [] => some acc
  | c :: rest => if c.isDigit then digitsVal rest (acc * 10 + (c.toNat - 48)) else none

/-- JS `Number(...)` on one colon-separated field of an `"HH:MM"` string:
a whitespace-only (incl. empty) field parses as 0, a decimal digit string as
its value, anything else as NaN (`none`). (Signed, fractional and radix forms
do not occur in time fields and are not modelled.) -/
def jsNumber (cs : List Char) : Option Nat :=
  let t := ((cs.dropWhile isJsSpace).reverse.dropWhile isJsSpace).reverse
  match t with
  | [] => some 0
  | _ => digitsVal t 0

/-- `const [hours, minutes] = schedule.time.split(':').map(Number)` — the hours
field (`split` always yields a first part). -/
def parsedHour (time : String) : Option Nat :=
  jsNumber ((splitOnColon time.data).headD [])

/-- The minutes field; `none` covers both a missing second part (destructured
`undefined`) and NaN, which the use site treats alike via `minutes || 0`. -/
def parsedMinute (time : String) : Option Nat :=
  (splitOnColon time.data)[1]? >>= jsNumber

/-- `hours || 9` in `nextRun.setHours(hours || 9, ...)`: NaN and 0 are falsy,
so both fall back to 9. -/
def hourOrFallback : Option Nat → Nat
  | none => 9
  | some 0 => 9
  | some (n + 1) => n + 1

/-- `minutes || 0`: NaN (or a missing part) becomes 0; 0 stays 0. -/
def minuteOrZero : Option Nat → Nat
  | none => 0
  | some n => n

/-- A wall-clock moment in the schedule's timezone, at second granularity
(`setHours(h, m, 0, 0)` zeroes seconds and milliseconds, so the source's
`nextRun <= userTime` comparison is decided exactly by day and second-of-day):
`day` counts calendar days, `sec` is the second of the day. -/
structure Wall where
  day : Nat
  sec : Nat
deriving DecidableEq

/-- The next-run computation in `startScheduler` (lines 248-262): parse
`schedule.time`, set the parsed (or fallback) hour and minute on today's date
in the user timezone, and if that instant is `<=` now, move to the next day. -/
def nextRunOf (time : String) (now : Wall) : Wall :=
  let h := hourOrFallback (parsedHour time)
  let m := minuteOrZero (parsedMinute time)
  let target := h * 3600 + m * 60
  if target ≤ now.sec then ⟨now.day + 1, target⟩ else ⟨now.day, target⟩

/-- Modelled from the spec: the next-instant rule as §4.2 states it — interpret
the configured hour and minute on today's wall clock in the timezone, rolling
forward one calendar day when that instant is earlier than or equal to now.
Stated for comparison with `nextRunOf`, which embeds the source. -/
def specNextInstant (h m : Nat) (now : Wall) : Wall :=
  let target := h * 3600 + m * 60
  if target ≤ now.sec then ⟨now.day + 1, target⟩ else ⟨now.day, target⟩

/-- The timer environment of the scheduler: `timeouts` are the pending
`setTimeout` handles armed by `startScheduler` (never stored by the source),
`intervals` the live `setInterval` handles, `scheduleInterval` the module-level
variable (lines 234-235), `nextTimerId` allocates handles, `generations` counts
`generateScheduledPost` invocations. -/
structure SchedSys where
  timeouts : List Nat
  intervals : List Nat
  scheduleInterval : Option Nat
  nextTimerId : Nat
  generations : Nat
  isActive : Bool
deriving DecidableEq

/-- Timer state at module load: no timers, `scheduleInterval = null`, and the
default schedule's `isActive: true`. -/
def initSched : SchedSys :=
  ⟨[], [], none, 0, 0, true⟩

/-- `startScheduler` (lines 237-277): `clearInterval(scheduleInterval)` when the
variable is set (cancelling that interval if still live — the variable itself is
not reset), then, when the schedule is active, arm a `setTimeout` for the next
run. The `setTimeout` handle is discarded: no later call can cancel it. -/
def startScheduler (s : SchedSys) : SchedSys :=
  let s₁ :=
    match s.scheduleInterval with
    | some i => { s with intervals := s.intervals.filter (fun j => !(j = i)) }
    | none => s
  if s₁.isActive then
    { s₁ with timeouts := s₁.nextTimerId :: s₁.timeouts, nextTimerId := s₁.nextTimerId + 1 }
  else s₁

/-- A pending `setTimeout` fires (lines 272-276): run `generateScheduledPost`,
then `setupRecurringSchedule` (lines 279-302), which, when active, arms a fresh
`setInterval` and overwrites `scheduleInterval` with its handle. -/
def fireTimeout (s : SchedSys) (i : Nat) : SchedSys :=
  if i ∈ s.timeouts then
    let s₁ := { s with
      timeouts := s.timeouts.filter (fun j => !(j = i)),
      generations := s.generations + 1 }
    if s₁.isActive then
      { s₁ with
        intervals := s₁.nextTimerId :: s₁.intervals,
        scheduleInterval := some s₁.nextTimerId,
        nextTimerId := s₁.nextTimerId + 1 }
    else s₁
  else s

/-- A live `setInterval` ticks (lines 297-299): one more scheduled generation. -/
def fireInterval (s : SchedSys) (i : Nat) : SchedSys :=
  if i ∈ s.intervals then { s with generations := s.generations + 1 } else s

/-- Number of live scheduling timers (pending timeouts plus live intervals). -/
def liveTimers (s : SchedSys) : Nat :=
  s.timeouts.length + s.intervals.length

/-- Fixture: register a topic, generate a post (fallback path), approve it with
a successful publish. -/
def createApproveOps : List StoreOp :=
  [StoreOp.newTopic (some "t") "T1" 0,
   StoreOp.create GenBackend.unavailable 0 "P1" 1,
   StoreOp.approve "P1" (PublishOutcome.success "r1")]

/-- Fixture: a post already in the `approved` state. -/
def postApproved : PendingPost :=
  ⟨"P1", "hello world", some "t", 1, Status.approved⟩

/-- Fixture: a store holding one topic and one approved post. -/
def stApproved : AppState :=
  ⟨[("T1", ⟨"T1", "t", 0, true⟩)], [("P1", postApproved)], defaultSchedule⟩

/-- Fixture: a post in the `pending` state. -/
def postPending : PendingPost :=
  ⟨"P1", "hello world", some "t", 1, Status.pending⟩

/-- Fixture: a store holding one topic and one pending post. -/
def stPending : AppState :=
  ⟨[("T1", ⟨"T1", "t", 0, true⟩)], [("P1", postPending)], defaultSchedule⟩

/-- Fixture: the topic named `coding tips`, active. -/
def topicCoding : Topic :=
  ⟨"T1", "coding tips", 0, true⟩

/-- Fixture: a registry holding exactly the active topic `coding tips`. -/
def stCoding : AppState :=
  ⟨[("T1", topicCoding)], [], defaultSchedule⟩

/-- Setting a key makes it read back as the written value. -/
theorem mapGet_mapSet_self {α : Type} (m : List (String × α)) (k : String) (v : α) :
    mapGet (mapSet m k v) k = some v := by
  induction m with
  | nil => simp [mapSet, mapGet]
  | cons kv rest ih =>
    obtain ⟨k₁, v₁⟩ := kv
    by_cases hk : k₁ = k
    · simp [mapSet, mapGet, hk]
    · simp [mapSet, mapGet, hk, ih]

/-- Setting one key leaves every other key's binding unchanged. -/
theorem mapGet_mapSet_ne {α : Type} (m : List (String × α)) (k k₁ : String) (v : α)
    (h : ¬ k = k₁) : mapGet (mapSet m k v) k₁ = mapGet m k₁ := by
  induction m with
  | nil => simp [mapSet, mapGet, h]
  | cons kv rest ih =>
    obtain ⟨k₂, v₂⟩ := kv
    by_cases hk : k₂ = k
    · subst hk
      simp [mapSet, mapGet, h]
    · simp [mapSet, mapGet, hk, ih]

/-- `hours || 9` keeps a positive parsed hour. -/
theorem hourOrFallback_pos {h : Nat} (h1 : 1 ≤ h) : hourOrFallback (some h) = h := by
  match h, h1 with
  | n + 1, _ => rfl

/-- C1: the claim says a schedule update while a timer is armed fully cancels
the previous timer so at most one scheduling timer is live and exactly one
subsequent automatic generation occurs. In the code, `startScheduler` discards
its `setTimeout` handle and only `clearInterval`s the stored interval, so at
server start followed by one schedule update two timers are live, both fire,
two scheduled generations occur, and two recurring intervals are left live. -/
theorem c1_update_leaves_two_timers :
    liveTimers (startScheduler (startScheduler initSched)) = 2 ∧
    (fireTimeout (fireTimeout (startScheduler (startScheduler initSched)) 0) 1).generations = 2 ∧
    (fireTimeout (fireTimeout (startScheduler (startScheduler initSched)) 0) 1).intervals.length = 2 := by
  decide

/-- C2 (counterexample): after creating a post and approving it (publish
succeeds), its status is `approved`; a subsequent `reject` on the same id moves
it to `rejected` — a post is observed transitioning out of `approved`,
contradicting the claim that approved/rejected are never left. -/
theorem c2_status_not_terminal_counterexample :
    (mapGet (run emptyState createApproveOps).posts "P1").map PendingPost.status =
      some Status.approved ∧
    (mapGet (run emptyState (createApproveOps ++ [StoreOp.reject "P1"])).posts "P1").map
      PendingPost.status = some Status.rejected := by
  decide

/-- C2 (amended): post statuses are not terminal — for any stored post,
regardless of its current status, `reject` rewrites the status to `rejected`
and `approve` with a successful publish rewrites it to `approved`. -/
theorem c2_amended_status_overwritten (st : AppState) (id rid : String) (post : PendingPost)
    (hid : ¬ id = "") (h : mapGet st.posts id = some post) :
    mapGet (rejectPost st id).1.posts id = some { post with status := Status.rejected } ∧
    mapGet (approvePost st id (PublishOutcome.success rid)).1.posts id =
      some { post with status := Status.approved } := by
  constructor
  · simp [rejectPost, hid, h, mapGet_mapSet_self]
  · simp [approvePost, hid, h, mapGet_mapSet_self]

/-- Witness for C2 (amended) at an approved post. -/
theorem c2_amended_status_overwritten_witness :
    mapGet (rejectPost stApproved "P1").1.posts "P1" =
      some { postApproved with status := Status.rejected } ∧
    mapGet (approvePost stApproved "P1" (PublishOutcome.success "r2")).1.posts "P1" =
      some { postApproved with status := Status.approved } :=
  c2_amended_status_overwritten stApproved "P1" "r2" postApproved (by decide) (by decide)

/-- C3 (counterexample): on a post whose status is `approved` (not `pending`),
`approve` does not fail with an invalid-state error — the publish is attempted
and, succeeding, is acknowledged with the remote id — and `reject` succeeds as
well, contradicting the claimed `InvalidState` failures. -/
theorem c3_no_invalid_state_counterexample :
    (approvePost stApproved "P1" (PublishOutcome.success "r2")).2 = ApiResult.okId "r2" ∧
    (rejectPost stApproved "P1").2 = ApiResult.ok := by
  decide

/-- C3 (amended): an unknown id makes both `approve` and `reject` fail with the
not-found error, but for a known post with a non-pending status there is no
invalid-state guard: `approve` attempts the publish (on publisher success it
returns the remote id and sets `approved`) and `reject` succeeds. -/
theorem c3_amended_not_found_no_state_guard
    (st₁ st₂ : AppState) (id₁ id₂ rid : String) (post : PendingPost) (pub : PublishOutcome)
    (h₁ : ¬ id₁ = "") (hn : mapGet st₁.posts id₁ = none)
    (h₂ : ¬ id₂ = "") (hs : mapGet st₂.posts id₂ = some post)
    (hnp : ¬ post.status = Status.pending) :
    approvePost st₁ id₁ pub = (st₁, ApiResult.err "Post not found") ∧
    rejectPost st₁ id₁ = (st₁, ApiResult.err "Post not found") ∧
    (approvePost st₂ id₂ (PublishOutcome.success rid)).2 = ApiResult.okId rid ∧
    mapGet (approvePost st₂ id₂ (PublishOutcome.success rid)).1.posts id₂ =
      some { post with status := Status.approved } ∧
    (rejectPost st₂ id₂).2 = ApiResult.ok := by
  refine ⟨?_, ?_, ?_, ?_, ?_⟩ <;>
    simp [approvePost, rejectPost, h₁, hn, h₂, hs, mapGet_mapSet_self]

/-- Witness for C3 (amended): unknown id on the empty store, approved post in
`stApproved`. -/
theorem c3_amended_not_found_no_state_guard_witness :
    approvePost emptyState "P9" (PublishOutcome.failure "x") =
      (emptyState, ApiResult.err "Post not found") ∧
    rejectPost emptyState "P9" = (emptyState, ApiResult.err "Post not found") ∧
    (approvePost stApproved "P1" (PublishOutcome.success "r3")).2 = ApiResult.okId "r3" ∧
    mapGet (approvePost stApproved "P1" (PublishOutcome.success "r3")).1.posts "P1" =
      some { postApproved with status := Status.approved } ∧
    (rejectPost stApproved "P1").2 = ApiResult.ok :=
  c3_amended_not_found_no_state_guard emptyState stApproved "P9" "P1" "r3" postApproved
    (PublishOutcome.failure "x") (by decide) (by decide) (by decide) (by decide) (by decide)

/-- C4: approving a pending post when the Publisher reports failure leaves the
whole state (hence the post's `pending` status) unchanged and surfaces the
publisher's failure reason to the caller; a later `approve` retry on the same
id with a successful publish is accepted and only then is the status set to
`approved`. -/
theorem c4_publish_failure_keeps_pending (st : AppState) (id e rid : String) (post : PendingPost)
    (hid : ¬ id = "") (h : mapGet st.posts id = some post) (hp : post.status = Status.pending) :
    approvePost st id (PublishOutcome.failure e) = (st, ApiResult.err e) ∧
    (approvePost (approvePost st id (PublishOutcome.failure e)).1 id
      (PublishOutcome.success rid)).2 = ApiResult.okId rid ∧
    mapGet (approvePost (approvePost st id (PublishOutcome.failure e)).1 id
      (PublishOutcome.success rid)).1.posts id = some { post with status := Status.approved } := by
  have h₁ : approvePost st id (PublishOutcome.failure e) = (st, ApiResult.err e) := by
    simp [approvePost, hid, h]
  refine ⟨h₁, ?_, ?_⟩ <;> rw [h₁] <;> simp [approvePost, hid, h, mapGet_mapSet_self]

/-- Witness for C4 at a pending post. -/
theorem c4_publish_failure_keeps_pending_witness :
    approvePost stPending "P1" (PublishOutcome.failure "X API credentials not configured") =
      (stPending, ApiResult.err "X API credentials not configured") ∧
    (approvePost (approvePost stPending "P1"
      (PublishOutcome.failure "X API credentials not configured")).1 "P1"
      (PublishOutcome.success "r1")).2 = ApiResult.okId "r1" ∧
    mapGet (approvePost (approvePost stPending "P1"
      (PublishOutcome.failure "X API credentials not configured")).1 "P1"
      (PublishOutcome.success "r1")).1.posts "P1" =
      some { postPending with status := Status.approved } :=
  c4_publish_failure_keeps_pending stPending "P1" "X API credentials not configured" "r1"
    postPending (by decide) (by decide) (by decide)

/-- C5 (counterexample): with the active topic `coding tips` and a
ContentGenerator that errors, the generate route surfaces the error to the
caller and creates no post — contradicting the claim that a generation failure
is always recovered by the fallback and a pending post is still created. -/
theorem c5_generator_error_not_recovered_counterexample :
    generateRoute stCoding (GenBackend.throws "OpenRouter request failed") 0 "P9" 5 =
      (stCoding, ApiResult.err "OpenRouter request failed") := by
  decide

/-- C5 (amended): only an unavailable (unconfigured) ContentGenerator is
recovered with the deterministic fallback — then a pending post with the capped
fallback content is created and returned; a ContentGenerator call that errors
propagates to the route's catch: the caller receives the error and the state is
unchanged (no post is created). -/
theorem c5_amended_fallback_only_when_unavailable (st : AppState) (pick : Nat)
    (newId : String) (now : Nat) (m : String) (tp : Topic)
    (h : (activeTopics st)[pick % (activeTopics st).length]? = some tp) :
    generateRoute st (GenBackend.throws m) pick newId now = (st, ApiResult.err m) ∧
    (generateRoute st GenBackend.unavailable pick newId now).2 =
      ApiResult.okPost ⟨newId, capFor280 (fallbackTemplate (subjectOf (some tp.name))),
        some tp.name, now, Status.pending⟩ ∧
    mapGet (generateRoute st GenBackend.unavailable pick newId now).1.posts newId =
      some ⟨newId, capFor280 (fallbackTemplate (subjectOf (some tp.name))),
        some tp.name, now, Status.pending⟩ := by
  refine ⟨?_, ?_, ?_⟩ <;> simp [generateRoute, h, generatePost, mapGet_mapSet_self]

/-- Witness for C5 (amended) on the `coding tips` registry. -/
theorem c5_amended_fallback_only_when_unavailable_witness :
    generateRoute stCoding (GenBackend.throws "boom") 0 "P9" 5 =
      (stCoding, ApiResult.err "boom") ∧
    (generateRoute stCoding GenBackend.unavailable 0 "P9" 5).2 =
      ApiResult.okPost ⟨"P9", capFor280 (fallbackTemplate (subjectOf (some topicCoding.name))),
        some topicCoding.name, 5, Status.pending⟩ ∧
    mapGet (generateRoute stCoding GenBackend.unavailable 0 "P9" 5).1.posts "P9" =
      some ⟨"P9", capFor280 (fallbackTemplate (subjectOf (some topicCoding.name))),
        some topicCoding.name, 5, Status.pending⟩ :=
  c5_amended_fallback_only_when_unavailable stCoding 0 "P9" 5 "boom" topicCoding (by decide)

/-- C6: with an empty active-topic pool, the generate route replies with the
no-active-topics error and leaves the state (hence the stored posts) unchanged,
and the scheduled generation likewise creates nothing. -/
theorem c6_no_active_topics_no_post (st : AppState) (backend : GenBackend)
    (pick : Nat) (newId : String) (now : Nat) (h : activeTopics st = []) :
    generateRoute st backend pick newId now =
      (st, ApiResult.err "No active topics found. Please add and enable some topics first.") ∧
    generateScheduledPost st backend pick newId now = st := by
  constructor <;> simp [generateRoute, generateScheduledPost, h]

/-- Witness for C6 on the empty store. -/
theorem c6_no_active_topics_no_post_witness :
    generateRoute emptyState GenBackend.unavailable 0 "P1" 0 =
      (emptyState,
        ApiResult.err "No active topics found. Please add and enable some topics first.") ∧
    generateScheduledPost emptyState GenBackend.unavailable 0 "P1" 0 = emptyState :=
  c6_no_active_topics_no_post emptyState GenBackend.unavailable 0 "P1" 0 (by decide)

/-- C7: with exactly one active topic named `coding tips` and the
ContentGenerator unavailable, `generate` returns — and stores — a post whose
content is exactly the fallback sentence and whose status is `pending`. -/
theorem c7_coding_tips_fallback (st : AppState) (t : Topic) (pick : Nat)
    (newId : String) (now : Nat) (h : activeTopics st = [t]) (hn : t.name = "coding tips") :
    (generateRoute st GenBackend.unavailable pick newId now).2 =
      ApiResult.okPost ⟨newId,
        "Tip: coding tips. Keep it short, specific, and actionable. Focus on one insight, avoid fluff.",
        some "coding tips", now, Status.pending⟩ ∧
    mapGet (generateRoute st GenBackend.unavailable pick newId now).1.posts newId =
      some ⟨newId,
        "Tip: coding tips. Keep it short, specific, and actionable. Focus on one insight, avoid fluff.",
        some "coding tips", now, Status.pending⟩ := by
  have hcap : capFor280 (fallbackTemplate "coding tips") =
      "Tip: coding tips. Keep it short, specific, and actionable. Focus on one insight, avoid fluff." := by
    decide
  constructor <;>
    simp [generateRoute, h, Nat.mod_one, generatePost, subjectOf, hn, hcap, mapGet_mapSet_self]

/-- Witness for C7 on the `coding tips` registry. -/
theorem c7_coding_tips_fallback_witness :
    (generateRoute stCoding GenBackend.unavailable 3 "P1" 7).2 =
      ApiResult.okPost ⟨"P1",
        "Tip: coding tips. Keep it short, specific, and actionable. Focus on one insight, avoid fluff.",
        some "coding tips", 7, Status.pending⟩ ∧
    mapGet (generateRoute stCoding GenBackend.unavailable 3 "P1" 7).1.posts "P1" =
      some ⟨"P1",
        "Tip: coding tips. Keep it short, specific, and actionable. Focus on one insight, avoid fluff.",
        some "coding tips", 7, Status.pending⟩ :=
  c7_coding_tips_fallback stCoding topicCoding 3 "P1" 7 (by decide) (by decide)

/-- C8 (counterexample): the schedule time `00:30` parses to hour 0 and minute
30, yet the computed next run is 09:30 (34200 s), not the configured 00:30
(1800 s) that the claimed rule yields — so the next firing instant is not
always the configured HH:MM. -/
theorem c8_midnight_schedule_counterexample :
    parsedHour "00:30" = some 0 ∧ parsedMinute "00:30" = some 30 ∧
    nextRunOf "00:30" ⟨0, 0⟩ = ⟨0, 34200⟩ ∧
    specNextInstant 0 30 ⟨0, 0⟩ = ⟨0, 1800⟩ ∧
    ¬ nextRunOf "00:30" ⟨0, 0⟩ = specNextInstant 0 30 ⟨0, 0⟩ := by
  decide

/-- C8 (amended): for every schedule whose time parses to an hour of at least 1
and some minute, the next firing instant is the configured HH:MM on the current
wall-clock day in the configured timezone, rolled forward one day when it is
earlier than or equal to now; in particular `09:00` at 09:30 fires at 09:00 the
following day. (Hour 0 is replaced by the fallback hour 9 — see C10.) -/
theorem c8_amended_next_instant (time : String) (h m : Nat) (now : Wall)
    (hh : parsedHour time = some h) (hm : parsedMinute time = some m) (h1 : 1 ≤ h) :
    nextRunOf time now = specNextInstant h m now ∧
    nextRunOf "09:00" ⟨now.day, 34200⟩ = ⟨now.day + 1, 32400⟩ := by
  constructor
  · simp [nextRunOf, specNextInstant, hh, hm, hourOrFallback_pos h1, minuteOrZero]
  · have h9 : parsedHour "09:00" = some 9 := by decide
    have hm0 : parsedMinute "09:00" = some 0 := by decide
    simp [nextRunOf, h9, hm0, hourOrFallback, minuteOrZero]

/-- Witness for C8 (amended) at time `05:30`. -/
theorem c8_amended_next_instant_witness :
    nextRunOf "05:30" ⟨0, 0⟩ = specNextInstant 5 30 ⟨0, 0⟩ ∧
    nextRunOf "09:00" ⟨0, 34200⟩ = ⟨0 + 1, 32400⟩ :=
  c8_amended_next_instant "05:30" 5 30 ⟨0, 0⟩ (by decide) (by decide) (by decide)

/-- C9 (counterexample): `add` with the whitespace-only name `" "` does not
fail — it succeeds and creates a topic with that name, contradicting the claim
that blank names are rejected. -/
theorem c9_blank_name_accepted_counterexample :
    (addTopic emptyState (some " ") "T1" 0).2 = ApiResult.ok ∧
    mapGet (addTopic emptyState (some " ") "T1" 0).1.topics "T1" =
      some ⟨"T1", " ", 0, true⟩ := by
  decide

/-- C9 (amended): `add` fails with the name-required error exactly when the
name is missing or the empty string; any nonempty name — whitespace-only ones
included — is accepted and creates an active topic carrying that name. -/
theorem c9_amended_only_empty_rejected (st : AppState) (n newId : String) (now : Nat)
    (hn : ¬ n = "") :
    addTopic st none newId now = (st, ApiResult.err "Topic name required") ∧
    addTopic st (some "") newId now = (st, ApiResult.err "Topic name required") ∧
    (addTopic st (some n) newId now).2 = ApiResult.ok ∧
    mapGet (addTopic st (some n) newId now).1.topics newId = some ⟨newId, n, now, true⟩ := by
  refine ⟨rfl, ?_, ?_, ?_⟩ <;> simp [addTopic, hn, mapGet_mapSet_self]

/-- Witness for C9 (amended) at the whitespace-only name. -/
theorem c9_amended_only_empty_rejected_witness :
    addTopic emptyState none "T1" 0 = (emptyState, ApiResult.err "Topic name required") ∧
    addTopic emptyState (some "") "T1" 0 = (emptyState, ApiResult.err "Topic name required") ∧
    (addTopic emptyState (some " ") "T1" 0).2 = ApiResult.ok ∧
    mapGet (addTopic emptyState (some " ") "T1" 0).1.topics "T1" =
      some ⟨"T1", " ", 0, true⟩ :=
  c9_amended_only_empty_rejected emptyState " " "T1" 0 (by decide)

/-- C10: whenever the schedule's time parses to hour 0, the armed instant's
second-of-day is 9 h plus the parsed minutes — the fallback hour 9 replaces the
midnight hour, so such a schedule is never armed at its configured
midnight-hour time. -/
theorem c10_hour_zero_fallback (time : String) (m : Nat) (now : Wall)
    (h0 : parsedHour time = some 0) (hm : parsedMinute time = some m) :
    (nextRunOf time now).sec = 9 * 3600 + m * 60 ∧
    ¬ (nextRunOf time now).sec = 0 * 3600 + m * 60 := by
  have hsec : (nextRunOf time now).sec = 9 * 3600 + m * 60 := by
    simp only [nextRunOf, h0, hm, hourOrFallback, minuteOrZero]
    split <;> rfl
  refine ⟨hsec, ?_⟩
  rw [hsec]
  omega

/-- Witness for C10 at time `00:30`. -/
theorem c10_hour_zero_fallback_witness :
    (nextRunOf "00:30" ⟨0, 0⟩).sec = 9 * 3600 + 30 * 60 ∧
    ¬ (nextRunOf "00:30" ⟨0, 0⟩).sec = 0 * 3600 + 30 * 60 :=
  c10_hour_zero_fallback "00:30" 30 ⟨0, 0⟩ (by decide) (by decide)

end XPost
